import Mathlib

/-
Verification of the OctoAI Cloud LLM adapter (src/octoAICloud.py).

The adapter holds four configuration fields, validates them at
construction against explicit values and the process environment
(`validate_environment`, using langchain's `get_from_dict_or_env`),
exposes `_identifying_params`, and implements `_call`: build a JSON
payload and bearer-token headers, POST once to the endpoint, surface a
transport exception as a ValueError ("TransportError" in the spec's
taxonomy), surface an `error` key in the parsed body as a ValueError
("InferenceError"), extract `generated_text` (a missing key raises, the
spec's "MalformedResponseError"), and truncate at stop markers via
langchain's `enforce_stop_tokens`, which is re.split("|".join(stop), text)[0].
-/

namespace OctoAiCloud

/-- Parsed JSON values, as produced by `response.json()` and stored in
`model_kwargs`. Objects are association lists of string keys (JSON
parsing yields unique keys); numbers are modelled as integers. -/
inductive Json where
  | null
  | bool (b : Bool)
  | num (n : Int)
  | str (s : String)
  | arr (elems : List Json)
  | obj (fields : List (String × Json))

mutual

/-- Python string interpolation of a parsed JSON value, as used by the
f-string "Error raised by inference API: ..." at line 89 of the source.
Exact for the `null`/`bool`/`num`/`str` cases (Python renders None, True,
False, the number, and the bare string); container values are rendered
in a JSON-like style, which differs from Python's repr quoting — no
claim exercises a container-valued `error` field. -/
def Json.pyStr : Json → String
  | .null => "None"
  | .bool true => "True"
  | .bool false => "False"
  | .num n => toString n
  | .str s => s
  | .arr xs => "[" ++ Json.pyStrList xs ++ "]"
  | .obj fs => "\x7b" ++ Json.pyStrObj fs ++ "\x7d"
termination_by j => sizeOf j

/-- Comma-separated rendering of a JSON array body. -/
def Json.pyStrList : List Json → String
  | [] => ""
  | [x] => Json.pyStr x
  | x :: y :: xs => Json.pyStr x ++ ", " ++ Json.pyStrList (y :: xs)
termination_by xs => sizeOf xs

/-- Comma-separated rendering of a JSON object body. -/
def Json.pyStrObj : List (String × Json) → String
  | [] => ""
  | [(k, v)] => k ++ ": " ++ Json.pyStr v
  | (k, v) :: f :: fs => k ++ ": " ++ Json.pyStr v ++ ", " ++ Json.pyStrObj (f :: fs)
termination_by fs => sizeOf fs

end

/-- First value bound to key `k` in a parsed JSON object, `none` when the
key is absent. Models Python dict membership and indexing on the object
returned by `response.json()` (JSON objects have unique keys). -/
def lookupKey (obj : List (String × Json)) (k : String) : Option Json :=
  match obj with
  | [] => none
  | (k2, v) :: rest => if k2 = k then some v else lookupKey rest k

/-- The adapter's pydantic fields, in source declaration order
(lines 16-22): `endpoint_url` defaults to the empty string, the other
three default to `None`. -/
structure OctoAiCloudLLM where
  endpoint_url : String
  task : Option String
  model_kwargs : Option (List (String × Json))
  octoai_api_token : Option String

/-- Python `self.model_kwargs or \x7b\x7d` (lines 48 and 69): `None`
becomes the empty dict; an empty dict is already the empty dict, so
truthiness of the `some` case is immaterial. -/
def orEmptyDict (d : Option (List (String × Json))) : List (String × Json) :=
  match d with
  | none => []
  | some kw => kw

/-- Python truthiness of an optional string: `None` and the empty string
are falsy, every other string is truthy. This is the test both
`get_from_dict_or_env` (`if key in data and data[key]`) and
`get_from_env` (`if env_key in os.environ and os.environ[env_key]`)
apply. -/
def truthy : Option String → Bool
  | none => false
  | some s => !s.isEmpty

/-- The ValueError raised by langchain's `get_from_env` when a required
configuration value is found neither in the explicit values nor in the
environment; the spec's taxonomy names it ConfigurationError. The
message names both the field key and the environment variable. -/
inductive ConfigurationError where
  | missing (key : String) (env_key : String)

/-- langchain `get_from_env` with no default: return the environment
variable's value when it is set and non-empty, otherwise fail. -/
def get_from_env (env : String → Option String) (key env_key : String) :
    Except ConfigurationError String :=
  match env env_key with
  | some v => if v.isEmpty then .error (.missing key env_key) else .ok v
  | none => .error (.missing key env_key)

/-- langchain `get_from_dict_or_env`: use the explicit value when it is
truthy (present and non-empty), else fall back to the environment. -/
def get_from_dict_or_env (data : Option String)
    (env : String → Option String) (key env_key : String) :
    Except ConfigurationError String :=
  match data with
  | some v => if v.isEmpty then get_from_env env key env_key else .ok v
  | none => get_from_env env key env_key

/-- The `validate_environment` root validator (lines 28-35): resolve
`octoai_api_token` (against OCTOAI_API_TOKEN) and then `endpoint_url`
(against ENDPOINT_URL), in source order, and return the updated values.
The input `values` is the field dict after pydantic defaults, so
`endpoint_url` is the empty string and the others are `None` when not
given; `env` is the process environment. -/
def validate_environment (env : String → Option String)
    (values : OctoAiCloudLLM) : Except ConfigurationError OctoAiCloudLLM :=
  match get_from_dict_or_env values.octoai_api_token env
      "octoai_api_token" "OCTOAI_API_TOKEN" with
  | .error e => .error e
  | .ok tok =>
    match get_from_dict_or_env (some values.endpoint_url) env
        "endpoint_url" "ENDPOINT_URL" with
    | .error e => .error e
    | .ok url => .ok ⟨url, values.task, values.model_kwargs, some tok⟩

/-- The `_identifying_params` property (lines 42-49): a mapping with
exactly the keys `endpoint_url`, `task` and `model_kwargs`; the `None`
task renders as JSON null. -/
def identifying_params (llm : OctoAiCloudLLM) : List (String × Json) :=
  [("endpoint_url", Json.str llm.endpoint_url),
   ("task", match llm.task with | none => Json.null | some t => Json.str t),
   ("model_kwargs", Json.obj (orEmptyDict llm.model_kwargs))]

/-- Python `"|".join(stop)` (inside langchain `enforce_stop_tokens`),
as a character list: the markers spliced together with the pipe
character between consecutive markers. -/
def joinPipe : List String → List Char
  | [] => []
  | [s] => s.toList
  | s :: s2 :: rest => s.toList ++ '|' :: joinPipe (s2 :: rest)

/-- Split a regex pattern at its top-level alternation bars: the
alternatives of the pattern `"|".join(stop)`. The empty pattern has the
single empty alternative (it matches the empty string at position 0,
which is how Python re treats it). -/
def splitOnPipe : List Char → List (List Char)
  | [] => [[]]
  | c :: rest =>
    if c = '|' then [] :: splitOnPipe rest
    else
      match splitOnPipe rest with
      | [] => [[c]]
      | g :: gs => (c :: g) :: gs

/-- Literal match: the pattern is a leading substring of the text
suffix. This is how Python re matches one alternative exactly when the
alternative contains no regex special character; an alternative that
does contain one (a dot is a wildcard, a star can even make the pattern
ill-formed) is outside this model, and the truncation theorem below
therefore restricts its markers to special-character-free strings. -/
def litMatch : List Char → List Char → Bool
  | [], _ => true
  | _ :: _, [] => false
  | p :: ps, c :: cs => p = c && litMatch ps cs

/-- Does any alternative of the pattern match at the head of `s`? -/
def anyAltMatch (alts : List (List Char)) (s : List Char) : Bool :=
  alts.any (fun a => litMatch a s)

/-- Head of `re.split` for an alternation of literals: scan the text
left to right and cut at the first position where some alternative
matches; the whole text survives when no position matches. Element 0 of
re.split is exactly the text before the leftmost match. -/
def reSplitHead (alts : List (List Char)) : List Char → List Char
  | [] => []
  | c :: rest =>
    if anyAltMatch alts (c :: rest) then [] else c :: reSplitHead alts rest

/-- langchain `enforce_stop_tokens text stop`, which the source calls at
line 95: `re.split("|".join(stop), text)[0]`. The pipe-joining of the
markers and the alternation structure of the resulting pattern are
modelled exactly; each alternative is matched as a literal string.
This coincides with Python re precisely on patterns whose alternatives
contain no regex special character (see `reSpecialChars`): such an
alternative only matches its own literal occurrence. A marker carrying
another special character diverges — re reads a dot as a wildcard and
raises on a bare star — so every general theorem about this function
keeps its markers special-character-free, where the model is exact. -/
def enforce_stop_tokens (text : String) (stop : List String) : String :=
  String.mk (reSplitHead (splitOnPipe (joinPipe stop)) text.toList)

/-- The characters Python re treats as special in a pattern: a marker
containing any of them is not matched as a literal by
`re.split("|".join(stop), text)`. -/
def reSpecialChars : List Char := ".^$*+?[]()\\|\x7b\x7d".toList

/-- The outbound HTTP POST as `requests.post` receives it (line 79):
target URL, header mapping, and the JSON body. -/
structure HttpRequest where
  url : String
  headers : List (String × String)
  jsonBody : List (String × Json)

/-- What `requests.post` hands back on return: the status code (which
the source never reads) and the parsed object `response.json()`
yields. -/
structure HttpResponse where
  status_code : Nat
  body : List (String × Json)

/-- One attempt's outcome at the transport: a response, or a raised
`requests.exceptions.RequestException` carrying its rendered message. -/
inductive TransportOutcome where
  | ok (resp : HttpResponse)
  | exn (msg : String)

/-- The network as an oracle: the outcome of the n-th POST issued during
one `_call` (the source issues exactly one, so only index 0 is ever
consulted — there is no retry). -/
def Transport : Type := Nat → HttpRequest → TransportOutcome

/-- The error taxonomy of `_call`, named as in the spec. The first two
are the ValueErrors raised at lines 83 and 88 of the source; the third
is the KeyError a missing `generated_text` key raises at line 93, which
the spec names MalformedResponseError. `nonStringText` keeps the
embedding typed where Python is dynamic: a non-string `generated_text`
value would flow into re.split (a TypeError) or be returned in breach
of the `-> str` annotation; no claim exercises it. -/
inductive CallError where
  | transportError (msg : String)
  | inferenceError (msg : String)
  | malformedResponse (key : String)
  | nonStringText (v : Json)

/-- Python f-string interpolation of an optional string: `None` renders
as the four letters None. -/
def pyOptFormat : Option String → String
  | none => "None"
  | some s => s

/-- The `parameter_payload` dict of lines 68-69. -/
def parameter_payload (llm : OctoAiCloudLLM) (prompt : String) :
    List (String × Json) :=
  [("prompt", Json.str prompt),
   ("parameters", Json.obj (orEmptyDict llm.model_kwargs))]

/-- The `headers` dict of lines 72-75. -/
def callHeaders (llm : OctoAiCloudLLM) : List (String × String) :=
  [("Authorization", "Bearer " ++ pyOptFormat llm.octoai_api_token),
   ("Content-Type", "application/json")]

/-- The single request `_call` sends: `requests.post(self.endpoint_url,
headers=headers, json=parameter_payload)` of lines 79-81. -/
def buildRequest (llm : OctoAiCloudLLM) (prompt : String) : HttpRequest :=
  ⟨llm.endpoint_url, callHeaders llm, parameter_payload llm prompt⟩

/-- The `_call` method (lines 51-97): issue the one POST; a transport
exception becomes the line-83 ValueError; an `error` key in the parsed
body becomes the line-88 ValueError carrying the rendered value; else
extract `generated_text` (missing key: KeyError) and, when `stop` is not
None, truncate it with `enforce_stop_tokens`. -/
def call (llm : OctoAiCloudLLM) (transport : Transport) (prompt : String)
    (stop : Option (List String)) : Except CallError String :=
  match transport 0 (buildRequest llm prompt) with
  | .exn e => .error (.transportError ("Error raised by inference endpoint: " ++ e))
  | .ok resp =>
    match lookupKey resp.body "error" with
    | some v =>
      .error (.inferenceError ("Error raised by inference API: " ++ v.pyStr))
    | none =>
      match lookupKey resp.body "generated_text" with
      | none => .error (.malformedResponse "generated_text")
      | some (.str t) =>
        match stop with
        | none => .ok t
        | some markers => .ok (enforce_stop_tokens t markers)
      | some v => .error (.nonStringText v)

/-- State-passing reading of `_call`: a Python method receives `self`
and the caller sees `self` afterwards; the body of `_call` contains no
assignment to any field, so the outgoing `self` is the incoming one. -/
def call_step (llm : OctoAiCloudLLM) (transport : Transport)
    (prompt : String) (stop : Option (List String)) :
    Except CallError String × OctoAiCloudLLM :=
  (call llm transport prompt stop, llm)

/-- State-passing reading of the `_identifying_params` property, whose
body likewise assigns no field. -/
def identifying_params_step (llm : OctoAiCloudLLM) :
    List (String × Json) × OctoAiCloudLLM :=
  (identifying_params llm, llm)

/-- First index at which `marker` occurs in the text as a plain
substring, `none` when it does not occur. This is the spec's notion of
a marker's first-occurrence index. -/
def firstOccIdx (marker : List Char) : List Char → Option Nat
  | [] => if litMatch marker [] then some 0 else none
  | c :: rest =>
    if litMatch marker (c :: rest) then some 0
    else (firstOccIdx marker rest).map (· + 1)

/-- Minimum of two optional indices, treating `none` as absence. -/
def optMin : Option Nat → Option Nat → Option Nat
  | none, y => y
  | some n, none => some n
  | some n, some m => some (min n m)

/-- Minimum first-occurrence index across all markers that occur in the
text, `none` when no marker occurs. -/
def minStopIdx (text : List Char) : List String → Option Nat
  | [] => none
  | s :: rest => optMin (firstOccIdx s.toList text) (minStopIdx text rest)

/-- Modelled from the spec: truncation as section 4.1 step 7 words it —
scan the markers, take each one's first plain-substring occurrence
index in the text, and truncate just before the minimum such index
across all markers found; the text is unchanged when no marker
occurs. -/
def specStopTruncate (text : String) (stop : List String) : String :=
  match minStopIdx text.toList stop with
  | none => text
  | some i => String.mk (text.toList.take i)

/-- Position of the leftmost match of an alternation of literal
patterns in the text: the smallest index at which some alternative
matches, `none` when no index admits a match. -/
def altFirstMatch (alts : List (List Char)) : List Char → Option Nat
  | [] => if anyAltMatch alts [] then some 0 else none
  | c :: rest =>
    if anyAltMatch alts (c :: rest) then some 0
    else (altFirstMatch alts rest).map (· + 1)

/-- Cut a character list at an optional index: keep everything when the
index is absent, else keep the strict prefix before it. -/
def cutAt (text : List Char) : Option Nat → List Char
  | none => text
  | some i => text.take i

/-- A concrete sample adapter used to instantiate theorems. -/
def llmA : OctoAiCloudLLM := ⟨"https://example.test/infer", none, none, some "tok"⟩

/-- A pipe-free pattern is its own single alternative. -/
theorem splitOnPipe_no_pipe (cs : List Char) (h : '|' ∉ cs) :
    splitOnPipe cs = [cs] := by
  induction cs with
  | nil => rfl
  | cons c rest ih =>
    have hc : ¬ c = '|' := fun hc => h (by simp [hc])
    have hr : '|' ∉ rest := fun hm => h (List.mem_cons_of_mem _ hm)
    simp [splitOnPipe, hc, ih hr]

/-- Splitting peels one pipe-free alternative off the front. -/
theorem splitOnPipe_append (a b : List Char) (h : '|' ∉ a) :
    splitOnPipe (a ++ '|' :: b) = a :: splitOnPipe b := by
  induction a with
  | nil => simp [splitOnPipe]
  | cons c rest ih =>
    have hc : ¬ c = '|' := fun hc => h (by simp [hc])
    have hr : '|' ∉ rest := fun hm => h (List.mem_cons_of_mem _ hm)
    simp [splitOnPipe, hc, ih hr]

/-- For a non-empty marker list whose markers are pipe-free, the
alternatives of the joined pattern are exactly the markers. -/
theorem splitOnPipe_joinPipe : ∀ (stop : List String), stop ≠ [] →
    (∀ s ∈ stop, '|' ∉ s.toList) →
    splitOnPipe (joinPipe stop) = stop.map String.toList
  | [], hne, _ => absurd rfl hne
  | [s], _, hp => by
    simp only [joinPipe, List.map_cons, List.map_nil]
    exact splitOnPipe_no_pipe s.toList (hp s (by simp))
  | s :: s2 :: rest2, _, hp => by
    have h1 : '|' ∉ s.toList := hp s (by simp)
    rw [joinPipe, splitOnPipe_append _ _ h1,
      splitOnPipe_joinPipe (s2 :: rest2) (by simp)
        (fun t ht => hp t (List.mem_cons_of_mem _ ht))]
    simp

/-- Head of a cons list of alternatives, unfolded. -/
theorem anyAltMatch_cons (a : List Char) (alts : List (List Char))
    (s : List Char) :
    anyAltMatch (a :: alts) s = (litMatch a s || anyAltMatch alts s) := rfl

/-- The head of the regex split is the text cut at the leftmost
match. -/
theorem reSplitHead_eq (alts : List (List Char)) (text : List Char) :
    reSplitHead alts text = cutAt text (altFirstMatch alts text) := by
  induction text with
  | nil =>
    cases hA : anyAltMatch alts [] <;>
      simp [reSplitHead, altFirstMatch, hA, cutAt]
  | cons c rest ih =>
    cases hA : anyAltMatch alts (c :: rest) with
    | true => simp [reSplitHead, altFirstMatch, hA, cutAt]
    | false =>
      simp only [reSplitHead, altFirstMatch, hA, Bool.false_eq_true,
        if_false, ih]
      cases h2 : altFirstMatch alts rest <;> simp [cutAt, h2]

/-- An empty alternation never matches. -/
theorem altFirstMatch_nil (text : List Char) :
    altFirstMatch [] text = none := by
  induction text with
  | nil => rfl
  | cons c rest ih => simp [altFirstMatch, anyAltMatch, ih]

/-- The optional minimum absorbs an index of zero on the left. -/
theorem optMin_zero_left (y : Option Nat) :
    optMin (some 0) y = some 0 := by
  cases y <;> simp [optMin, Nat.zero_min]

/-- The optional minimum absorbs an index of zero on the right. -/
theorem optMin_zero_right (x : Option Nat) :
    optMin x (some 0) = some 0 := by
  cases x <;> simp [optMin, Nat.min_zero]

/-- Shifting both indices by one commutes with the optional minimum. -/
theorem optMin_map_succ (x y : Option Nat) :
    optMin (x.map (· + 1)) (y.map (· + 1)) = (optMin x y).map (· + 1) := by
  cases x <;> cases y <;> (first | (simp [optMin]; omega) | simp [optMin])

/-- The leftmost match of an alternation is the minimum of the head
alternative's first occurrence and the leftmost match of the rest. -/
theorem altFirstMatch_cons (a : List Char) (alts : List (List Char))
    (text : List Char) :
    altFirstMatch (a :: alts) text =
      optMin (firstOccIdx a text) (altFirstMatch alts text) := by
  induction text with
  | nil =>
    cases hl : litMatch a [] <;> cases hA : anyAltMatch alts [] <;>
      simp [altFirstMatch, anyAltMatch_cons, firstOccIdx, hl, hA, optMin,
        optMin_zero_left, optMin_zero_right]
  | cons c rest ih =>
    cases hl : litMatch a (c :: rest) <;>
      cases hA : anyAltMatch alts (c :: rest) <;>
      simp [altFirstMatch, anyAltMatch_cons, firstOccIdx, hl, hA, ih,
        optMin_map_succ, optMin_zero_left, optMin_zero_right]

/-- The leftmost match of the markers, read as alternatives, is the
spec's minimum first-occurrence index across the markers. -/
theorem altFirstMatch_eq_minStopIdx (stop : List String)
    (text : List Char) :
    altFirstMatch (stop.map String.toList) text = minStopIdx text stop := by
  induction stop with
  | nil => simp [altFirstMatch_nil, minStopIdx]
  | cons s rest ih => simp [altFirstMatch_cons, minStopIdx, ih]

/-- Rebuilding a string from its character list is the identity. -/
theorem mk_toList (s : String) : String.mk s.toList = s := rfl

/-- C1, counterexample: the claim quantifies over every non-empty
sequence of stop markers, but the code splices the markers into one
regex pattern, so any marker containing a regex special character is
not matched as the plain substring the claim describes. The pipe is
the instance this embedding models exactly: a marker that contains one
is read as two alternatives. With text "xb" and the single marker
"a|b": the marker does not occur in the text as a substring, so the
claim requires the text unchanged, yet the code returns "x". (Other
special characters diverge too — re reads a dot in a marker as a
wildcard and raises on a bare star — so the amendment excludes all of
`reSpecialChars`, the domain on which re matching is literal.) -/
theorem enforce_stop_tokens_pipe_counterexample :
    enforce_stop_tokens "xb" ["a|b"] = "x" ∧
      firstOccIdx ("a|b".toList) ("xb".toList) = none ∧
      enforce_stop_tokens "xb" ["a|b"] ≠ "xb" := by
  refine ⟨rfl, rfl, ?_⟩
  decide

/-- C1 (amended): for every text and every non-empty sequence of stop
markers none of which contains a Python regex special character (the
characters of `reSpecialChars`; on such markers re matching is plain
literal matching, so the embedding is exact there),
`enforce_stop_tokens` returns the text truncated just before the
minimum first-occurrence index across all markers that occur in the
text, and returns the text unchanged when no marker occurs — that is,
it agrees with the spec-side truncation `specStopTruncate`. -/
theorem enforce_stop_tokens_truncates_at_min_index (text : String)
    (stop : List String) (hne : stop ≠ [])
    (hp : ∀ s ∈ stop, ∀ c ∈ s.toList, c ∉ reSpecialChars) :
    enforce_stop_tokens text stop = specStopTruncate text stop := by
  have hpipe : ∀ s ∈ stop, '|' ∉ s.toList :=
    fun s hs hmem => hp s hs '|' hmem (by decide)
  unfold enforce_stop_tokens specStopTruncate
  rw [splitOnPipe_joinPipe stop hne hpipe, reSplitHead_eq,
    altFirstMatch_eq_minStopIdx]
  cases h : minStopIdx text.toList stop with
  | none => exact mk_toList text
  | some i => rfl

/-- C1, witness: with text "hello world" and markers ["world", "hello"]
(both free of regex special characters) both markers occur and the
minimum first-occurrence index is 0, so the result is the empty
string. -/
theorem enforce_stop_tokens_truncates_witness :
    enforce_stop_tokens "hello world" ["world", "hello"] =
        specStopTruncate "hello world" ["world", "hello"] ∧
      enforce_stop_tokens "hello world" ["world", "hello"] = "" :=
  ⟨enforce_stop_tokens_truncates_at_min_index "hello world"
      ["world", "hello"] (by decide) (by decide),
    by decide⟩

/-- C2: when the parsed body has an `error` key, `call` fails with an
InferenceError whose message carries the key's rendered value (after
the fixed prefix, so the message contains the value); and the check
reads only the parsed body — the HTTP status code never influences the
result, as witnessed by two transports that differ only in status. The
first part holds for every body, in particular one that also carries a
`generated_text` key, so the error check takes precedence. -/
theorem call_error_key_inference :
    (∀ (llm : OctoAiCloudLLM) (transport : Transport) (prompt : String)
        (stop : Option (List String)) (resp : HttpResponse) (v : Json),
      transport 0 (buildRequest llm prompt) = .ok resp →
      lookupKey resp.body "error" = some v →
      call llm transport prompt stop =
        .error (.inferenceError ("Error raised by inference API: " ++ v.pyStr)))
    ∧ (∀ (llm : OctoAiCloudLLM) (prompt : String)
        (stop : Option (List String)) (s1 s2 : Nat)
        (body : List (String × Json)),
      call llm (fun _ _ => .ok ⟨s1, body⟩) prompt stop =
        call llm (fun _ _ => .ok ⟨s2, body⟩) prompt stop) := by
  constructor
  · intro llm transport prompt stop resp v hT hE
    simp only [call, hT, hE]
  · intro llm prompt stop s1 s2 body
    rfl

/-- C2, witness: a body carrying error "rate limited" (alongside a
`generated_text` key) yields an InferenceError containing
"rate limited", at status 200. -/
theorem call_error_key_inference_witness :
    call llmA
        (fun _ _ => .ok ⟨200, [("error", Json.str "rate limited"),
          ("generated_text", Json.str "hi")]⟩) "x" none =
      .error (.inferenceError
        ("Error raised by inference API: " ++ "rate limited")) := by
  have h := call_error_key_inference.1 llmA
    (fun _ _ => .ok ⟨200, [("error", Json.str "rate limited"),
      ("generated_text", Json.str "hi")]⟩) "x" none
    ⟨200, [("error", Json.str "rate limited"),
      ("generated_text", Json.str "hi")]⟩ (Json.str "rate limited") rfl rfl
  simpa [Json.pyStr] using h

/-- C3: when the one POST the call issues raises, `call` fails with the
TransportError wrapping the underlying failure message, and no other
result is produced. The transport oracle is quantified over all
behaviours at attempt indices beyond 0, so the theorem also reads: even
when every further attempt would succeed, the first failure is terminal
— there is no retry and no partial result. -/
theorem call_transport_failure_terminal
    (llm : OctoAiCloudLLM) (transport : Transport) (prompt : String)
    (stop : Option (List String)) (e : String)
    (h : transport 0 (buildRequest llm prompt) = .exn e) :
    call llm transport prompt stop =
      .error (.transportError
        ("Error raised by inference endpoint: " ++ e)) := by
  unfold call
  rw [h]

/-- C3, witness: a transport whose every attempt raises "connection
refused" makes the call fail with the wrapped TransportError. -/
theorem call_transport_failure_witness :
    call llmA (fun _ _ => .exn "connection refused") "x" none =
      .error (.transportError
        ("Error raised by inference endpoint: " ++ "connection refused")) :=
  call_transport_failure_terminal llmA (fun _ _ => .exn "connection refused")
    "x" none "connection refused" rfl

/-- C5: with a body binding `generated_text` to the string t, no
`error` key, and stop not provided, `call` returns exactly t; in
particular a call with prompt "x" on the body with generated_text
"hello world" returns "hello world". -/
theorem call_returns_generated_text :
    (∀ (llm : OctoAiCloudLLM) (transport : Transport) (prompt : String)
        (resp : HttpResponse) (t : String),
      transport 0 (buildRequest llm prompt) = .ok resp →
      lookupKey resp.body "error" = none →
      lookupKey resp.body "generated_text" = some (Json.str t) →
      call llm transport prompt none = .ok t)
    ∧ (∀ llm : OctoAiCloudLLM,
      call llm
        (fun _ _ => .ok ⟨200, [("generated_text", Json.str "hello world")]⟩)
        "x" none = .ok "hello world") := by
  constructor
  · intro llm transport prompt resp t hT hE hG
    simp only [call, hT, hE, hG]
  · intro llm
    rfl

/-- C5, witness: the concrete instance at the sample adapter. -/
theorem call_returns_generated_text_witness :
    call llmA
      (fun _ _ => .ok ⟨200, [("generated_text", Json.str "hello world")]⟩)
      "x" none = .ok "hello world" :=
  call_returns_generated_text.1 llmA
    (fun _ _ => .ok ⟨200, [("generated_text", Json.str "hello world")]⟩)
    "x" ⟨200, [("generated_text", Json.str "hello world")]⟩ "hello world"
    rfl rfl rfl

/-- C6: a parsed body with neither an `error` key nor a
`generated_text` key makes `call` fail — with the error the spec names
MalformedResponseError (the KeyError of the source's line 93) — rather
than return a string. -/
theorem call_missing_generated_text_fails
    (llm : OctoAiCloudLLM) (transport : Transport) (prompt : String)
    (stop : Option (List String)) (resp : HttpResponse)
    (hT : transport 0 (buildRequest llm prompt) = .ok resp)
    (hE : lookupKey resp.body "error" = none)
    (hG : lookupKey resp.body "generated_text" = none) :
    call llm transport prompt stop =
      .error (.malformedResponse "generated_text") := by
  simp only [call, hT, hE, hG]

/-- C6, witness: a body with only an unrelated key fails with the
missing-key error. -/
theorem call_missing_generated_text_witness :
    call llmA (fun _ _ => .ok ⟨200, [("foo", Json.null)]⟩) "x" none =
      .error (.malformedResponse "generated_text") :=
  call_missing_generated_text_fails llmA
    (fun _ _ => .ok ⟨200, [("foo", Json.null)]⟩) "x" none
    ⟨200, [("foo", Json.null)]⟩ rfl rfl rfl

/-- C7: `_identifying_params` returns exactly the mapping with keys
endpoint_url, task and model_kwargs; its key list never includes the
token; it has no side effect on the adapter; and it is identical for
any two adapters that agree on those three fields, in particular for
two that differ only in `octoai_api_token`. -/
theorem identifying_params_excludes_token :
    (∀ llm : OctoAiCloudLLM,
      identifying_params llm =
        [("endpoint_url", Json.str llm.endpoint_url),
         ("task", match llm.task with
                  | none => Json.null
                  | some t => Json.str t),
         ("model_kwargs", Json.obj (orEmptyDict llm.model_kwargs))])
    ∧ (∀ llm : OctoAiCloudLLM,
      (identifying_params llm).map Prod.fst =
        ["endpoint_url", "task", "model_kwargs"])
    ∧ (∀ llm : OctoAiCloudLLM, (identifying_params_step llm).2 = llm)
    ∧ (∀ llm1 llm2 : OctoAiCloudLLM,
      llm1.endpoint_url = llm2.endpoint_url → llm1.task = llm2.task →
      llm1.model_kwargs = llm2.model_kwargs →
      identifying_params llm1 = identifying_params llm2) := by
  refine ⟨fun llm => rfl, fun llm => rfl, fun llm => rfl, ?_⟩
  intro llm1 llm2 h1 h2 h3
  unfold identifying_params
  rw [h1, h2, h3]

/-- C7, witness: two adapters differing only in the token have equal
identifying parameters. -/
theorem identifying_params_excludes_token_witness :
    identifying_params ⟨"u", none, none, some "secret-a"⟩ =
      identifying_params ⟨"u", none, none, some "secret-b"⟩ :=
  identifying_params_excludes_token.2.2.2
    ⟨"u", none, none, some "secret-a"⟩ ⟨"u", none, none, some "secret-b"⟩
    rfl rfl rfl

/-- C8: the one request a call sends goes to `endpoint_url` with body
exactly prompt plus parameters (model_kwargs or the empty object) and
headers exactly the bearer Authorization and the JSON Content-Type; and
the call's outcome depends on the transport only through that single
request, so nothing else is sent. -/
theorem call_request_shape (llm : OctoAiCloudLLM) (prompt : String)
    (tok : String) (h : llm.octoai_api_token = some tok) :
    buildRequest llm prompt =
        ⟨llm.endpoint_url,
         [("Authorization", "Bearer " ++ tok),
          ("Content-Type", "application/json")],
         [("prompt", Json.str prompt),
          ("parameters", Json.obj (orEmptyDict llm.model_kwargs))]⟩
    ∧ ∀ (t1 t2 : Transport) (stop : Option (List String)),
        t1 0 (buildRequest llm prompt) = t2 0 (buildRequest llm prompt) →
        call llm t1 prompt stop = call llm t2 prompt stop := by
  constructor
  · unfold buildRequest callHeaders parameter_payload pyOptFormat
    rw [h]
  · intro t1 t2 stop hEq
    unfold call
    rw [hEq]

/-- C8, witness: the concrete request of the sample adapter at prompt
"p". -/
theorem call_request_shape_witness :
    buildRequest llmA "p" =
      ⟨"https://example.test/infer",
       [("Authorization", "Bearer " ++ "tok"),
        ("Content-Type", "application/json")],
       [("prompt", Json.str "p"), ("parameters", Json.obj [])]⟩ :=
  (call_request_shape llmA "p" "tok" rfl).1

/-- C9: in the state-passing reading of the two operations, the adapter
coming out of every `_call` and every `_identifying_params` is the
adapter that went in — every configuration field survives every
operation unchanged. -/
theorem adapter_immutable :
    (∀ (llm : OctoAiCloudLLM) (transport : Transport) (prompt : String)
        (stop : Option (List String)),
      (call_step llm transport prompt stop).2 = llm ∧
        (call_step llm transport prompt stop).2.endpoint_url =
          llm.endpoint_url ∧
        (call_step llm transport prompt stop).2.task = llm.task ∧
        (call_step llm transport prompt stop).2.model_kwargs =
          llm.model_kwargs ∧
        (call_step llm transport prompt stop).2.octoai_api_token =
          llm.octoai_api_token)
    ∧ (∀ llm : OctoAiCloudLLM, (identifying_params_step llm).2 = llm) :=
  ⟨fun _ _ _ _ => ⟨rfl, rfl, rfl, rfl, rfl⟩, fun _ => rfl⟩

/-- An alternation containing the empty alternative cuts every text at
position 0, which is what the empty joined pattern produces. -/
theorem reSplitHead_empty_alt (cs : List Char) : reSplitHead [[]] cs = [] := by
  cases cs with
  | nil => rfl
  | cons c rest => simp [reSplitHead, anyAltMatch, litMatch]

/-- C10: with stop provided but empty, the joined regex pattern is the
empty pattern, which matches at position 0, so the whole generated text
is cut away: `enforce_stop_tokens` returns the empty string for every
text, and a call with stop = some [] returns the empty string rather
than the unchanged text. -/
theorem call_empty_stop_returns_empty :
    (∀ t : String, enforce_stop_tokens t [] = "")
    ∧ (∀ (llm : OctoAiCloudLLM) (transport : Transport) (prompt : String)
        (resp : HttpResponse) (t : String),
      transport 0 (buildRequest llm prompt) = .ok resp →
      lookupKey resp.body "error" = none →
      lookupKey resp.body "generated_text" = some (Json.str t) →
      call llm transport prompt (some []) = .ok "") := by
  have hbase : ∀ t : String, enforce_stop_tokens t [] = "" := by
    intro t
    show String.mk (reSplitHead [[]] t.toList) = ""
    rw [reSplitHead_empty_alt]
  refine ⟨hbase, ?_⟩
  intro llm transport prompt resp t hT hE hG
  simp only [call, hT, hE, hG, hbase t]

/-- C10, witness: the non-empty text "hello world" comes back as the
empty string under stop = some []. -/
theorem call_empty_stop_witness :
    call llmA
      (fun _ _ => .ok ⟨200, [("generated_text", Json.str "hello world")]⟩)
      "x" (some []) = .ok "" :=
  call_empty_stop_returns_empty.2 llmA
    (fun _ _ => .ok ⟨200, [("generated_text", Json.str "hello world")]⟩)
    "x" ⟨200, [("generated_text", Json.str "hello world")]⟩ "hello world"
    rfl rfl rfl

/-- Resolution fails whenever the explicit value and the environment
variable are both falsy (absent or empty), with the missing-field
ConfigurationError. -/
theorem get_from_dict_or_env_falsy (data : Option String)
    (env : String → Option String) (key env_key : String)
    (h1 : truthy data = false) (h2 : truthy (env env_key) = false) :
    get_from_dict_or_env data env key env_key =
      .error (.missing key env_key) := by
  have henv : get_from_env env key env_key = .error (.missing key env_key) := by
    unfold get_from_env
    cases hv : env env_key with
    | none => rfl
    | some v =>
      rw [hv] at h2
      simp [truthy] at h2
      simp [h2]
  cases hd : data with
  | none => simpa [get_from_dict_or_env] using henv
  | some v =>
    rw [hd] at h1
    simp [truthy] at h1
    simp [get_from_dict_or_env, h1, henv]

/-- C4, counterexample: both values supplied explicitly — the endpoint
as the (explicit) empty string, the token as "tok" — yet construction
in an empty environment fails, because langchain's resolution treats a
falsy explicit value as absent; and with ENDPOINT_URL set, the same
explicit value is not preferred: the environment wins. -/
theorem validate_environment_empty_explicit_counterexample :
    validate_environment (fun _ => none) ⟨"", none, none, some "tok"⟩ =
        .error (.missing "endpoint_url" "ENDPOINT_URL") ∧
      validate_environment
          (fun k => if k = "ENDPOINT_URL" then some "envurl" else none)
          ⟨"", none, none, some "tok"⟩ =
        .ok ⟨"envurl", none, none, some "tok"⟩ :=
  ⟨rfl, rfl⟩

/-- C4 (amended): construction resolves each required field by
preferring a non-empty explicit value and falling back to the
environment variable (an empty explicit value, like an empty
environment value, counts as absent): with both values supplied
explicitly as non-empty strings it succeeds for every environment
state, and with either value absent from both sources it fails with a
ConfigurationError. -/
theorem validate_environment_resolution :
    (∀ (env : String → Option String) (url tok : String)
        (task : Option String) (kw : Option (List (String × Json))),
      url ≠ "" → tok ≠ "" →
      validate_environment env ⟨url, task, kw, some tok⟩ =
        .ok ⟨url, task, kw, some tok⟩)
    ∧ (∀ (env : String → Option String) (values : OctoAiCloudLLM),
      truthy values.octoai_api_token = false →
      truthy (env "OCTOAI_API_TOKEN") = false →
      ∃ e, validate_environment env values = .error e)
    ∧ (∀ (env : String → Option String) (values : OctoAiCloudLLM),
      values.endpoint_url = "" →
      truthy (env "ENDPOINT_URL") = false →
      ∃ e, validate_environment env values = .error e) := by
  refine ⟨?_, ?_, ?_⟩
  · intro env url tok task kw hu ht
    simp [validate_environment, get_from_dict_or_env,
      String.isEmpty_iff, hu, ht]
  · intro env values h1 h2
    refine ⟨.missing "octoai_api_token" "OCTOAI_API_TOKEN", ?_⟩
    unfold validate_environment
    rw [get_from_dict_or_env_falsy values.octoai_api_token env
      "octoai_api_token" "OCTOAI_API_TOKEN" h1 h2]
  · intro env values h1 h2
    unfold validate_environment
    cases htok : get_from_dict_or_env values.octoai_api_token env
        "octoai_api_token" "OCTOAI_API_TOKEN" with
    | error e => exact ⟨e, rfl⟩
    | ok tok =>
      refine ⟨.missing "endpoint_url" "ENDPOINT_URL", ?_⟩
      have hurl := get_from_dict_or_env_falsy (some values.endpoint_url) env
        "endpoint_url" "ENDPOINT_URL" (by simp [truthy, h1, String.isEmpty_iff]) h2
      simp only [hurl]

/-- C4, witness: explicit non-empty values win in a fully populated
environment, and a fully absent configuration fails. -/
theorem validate_environment_resolution_witness :
    validate_environment (fun _ => some "envvalue")
        ⟨"https://u", none, none, some "t"⟩ =
        .ok ⟨"https://u", none, none, some "t"⟩ ∧
      ∃ e, validate_environment (fun _ => none) ⟨"", none, none, none⟩ =
        .error e :=
  ⟨validate_environment_resolution.1 (fun _ => some "envvalue")
      "https://u" "t" none none (by decide) (by decide),
    validate_environment_resolution.2.1 (fun _ => none)
      ⟨"", none, none, none⟩ rfl rfl⟩

end OctoAiCloud
